import Mathlib

/-!
Verification of the SDEverse authentication module
(`server/controllers/auth.controller.js` and the client auth slice).

Modelling conventions (shallow embedding):
* JavaScript strings are modelled as `List Char` (`Str`).  All strings that
  occur in the claims are ASCII, where Lean's `Char.toLower`,
  `Char.isWhitespace`, `Char.isAlphanum` agree with the JavaScript
  behaviour of `toLowerCase`, `trim` and the regex character classes used
  by the controller.
* The Mongo collections are modelled as in-memory lists; `findOne` is the
  first match in insertion order; `_id` generation is a counter.
* `Date.now()` and the generated OTP code are inputs of the corresponding
  handler (the clock and the RNG are environment inputs).
* Password hashing lives in `user.model.js`, which is outside the
  repository slice and declared an opaque capability by the spec; it is
  modelled as the identity, with `matchPassword` as string equality.
  No claim depends on the hash function itself.
* `sendEmail` and Google token verification are opaque capabilities:
  `sendEmail` has no observable effect on the two stores, and
  `googleAuth` receives the verification outcome (`Option GooglePayload`)
  as an argument.
-/

/-- JavaScript strings, modelled as lists of characters. -/
abbrev Str := List Char

/-- Coerce a Lean string literal to the `Str` model. -/
def str (s : String) : Str := s.toList

/-- JavaScript `String.prototype.trim()`: drop whitespace from both ends
(modelled with Lean's ASCII whitespace predicate). -/
def jsTrim (l : Str) : Str :=
  ((l.dropWhile Char.isWhitespace).reverse.dropWhile Char.isWhitespace).reverse

/-- JavaScript `String.prototype.toLowerCase()` (ASCII range). -/
def jsToLower (l : Str) : Str := l.map Char.toLower

/-- `sanitizeInput` from auth.controller.js: `input.trim().replace(/^\$/, "")`
— trim, then remove a single leading dollar sign. -/
def sanitizeInput (input : Str) : Str :=
  match jsTrim input with
  | '$' :: rest => rest
  | t => t

/-- Character class `[^\s@]` of the email regex. -/
def emailChunkChar (c : Char) : Bool := !c.isWhitespace && c != '@'

/-- Test of `/^[^\s@]+@[^\s@]+\.[^\s@]+$/` on a string: exactly one `@`,
no whitespace, a non-empty local part, and a dot in the domain part that
is neither its first nor its last character. -/
def emailRegexTest (l : Str) : Bool :=
  match l.splitOn '@' with
  | [localPart, domain] =>
      !localPart.isEmpty && localPart.all emailChunkChar &&
      domain.all emailChunkChar && (domain.drop 1).dropLast.contains '.'
  | _ => false

/-- `validateEmail` from auth.controller.js: the regex is tested on the
trimmed string, while the 100-character bound is checked on the untrimmed
argument. -/
def validateEmail (email : Str) : Bool :=
  emailRegexTest (jsTrim email) && email.length ≤ 100

/-- `validateUsername` from auth.controller.js:
`/^[a-zA-Z0-9_]{3,20}$/` tested on the trimmed argument. -/
def validateUsername (username : Str) : Bool :=
  let t := jsTrim username
  3 ≤ t.length && t.length ≤ 20 && t.all (fun c => c.isAlphanum || c == '_')

/-- `validatePassword` from auth.controller.js: length between 6 and 128,
at least one letter and at least one digit. -/
def validatePassword (password : Str) : Bool :=
  6 ≤ password.length && password.length ≤ 128 &&
  password.any Char.isAlpha && password.any Char.isDigit

/-- A stored user document (`User` collection).  The `password` field
holds the (opaquely hashed) password; empty for OAuth accounts. -/
structure UserRec where
  id : Nat
  username : Str
  email : Str
  password : Str
  profilePic : Option Str
deriving DecidableEq, Repr

/-- A stored OTP document (`OTP` collection). -/
structure OtpRec where
  email : Str
  code : Nat
  createdAt : Nat
deriving DecidableEq, Repr

/-- The server-side state: the two Mongo collections plus the id counter. -/
structure DB where
  users : List UserRec
  otps : List OtpRec
  nextId : Nat
deriving DecidableEq, Repr

/-- The empty initial database. -/
def initDB : DB := ⟨[], [], 0⟩

/-- `User.findOne({ email: e })`: first user whose email equals `e`. -/
def findUserByEmail (users : List UserRec) (e : Str) : Option UserRec :=
  users.find? (fun u => u.email == e)

/-- `User.findOne({ username: n })`: first user whose username equals `n`. -/
def findUserByUsername (users : List UserRec) (n : Str) : Option UserRec :=
  users.find? (fun u => u.username == n)

/-- `OTP.findOne({ email: e, code: c })`. -/
def findOtp (otps : List OtpRec) (e : Str) (c : Nat) : Option OtpRec :=
  otps.find? (fun r => r.email == e && r.code == c)

/-- A minted JWT, modelled by the user id it signs (`jwt.sign({id})` /
`generateToken(user._id)`; the 7-day expiry is a constant of the signer). -/
structure SessionToken where
  userId : Nat
deriving DecidableEq, Repr

/-- A user document as returned to the client after
`delete userObj.password`. -/
structure PublicUser where
  id : Nat
  username : Str
  email : Str
  profilePic : Option Str
deriving DecidableEq, Repr

/-- Drop the password field from a user document. -/
def toPublic (u : UserRec) : PublicUser := ⟨u.id, u.username, u.email, u.profilePic⟩

/-- A `{ message, success }` JSON response body. -/
structure MsgOk where
  message : Str
  success : Bool
deriving DecidableEq, Repr

/-- Payload extracted from a verified Google identity token. -/
structure GooglePayload where
  email : Str
  name : Str
  picture : Str
deriving DecidableEq, Repr

/-- Result of the `googleAuth` handler.  On success the handler sends
`res.json({ success: true, token, user })` with the COMPLETE user
document (no `delete userObj.password` here, unlike register/login). -/
inductive GoogleResult where
  | success (token : SessionToken) (user : UserRec)
  | failure (message : Str)
deriving DecidableEq, Repr

/-- `googleAuth` from auth.controller.js.  `verified` is the outcome of
the opaque `client.verifyIdToken` capability (`none` = verification
threw).  Looks up by the RAW payload email (no lowercasing), creates a
user with the raw display name, raw email, empty password and the
picture when absent. -/
def googleAuth (db : DB) (verified : Option GooglePayload) : GoogleResult × DB :=
  match verified with
  | none => (.failure (str "Google login failed"), db)
  | some p =>
    match findUserByEmail db.users p.email with
    | some u => (.success ⟨u.id⟩ u, db)
    | none =>
      let u : UserRec := ⟨db.nextId, p.name, p.email, [], some p.picture⟩
      (.success ⟨db.nextId⟩ u, { db with users := db.users ++ [u], nextId := db.nextId + 1 })

/-- `registerUser` from auth.controller.js. -/
def registerUser (db : DB) (username email password : Str) :
    Except Str (PublicUser × SessionToken) × DB :=
  if username = [] ∨ email = [] ∨ password = [] then
    (.error (str "Please provide all required fields"), db)
  else
    let su := sanitizeInput username
    let se := sanitizeInput email
    if !validateUsername su then (.error (str "Invalid username format"), db)
    else if !validateEmail se then (.error (str "Invalid email address"), db)
    else if !validatePassword password then (.error (str "Weak password"), db)
    else
      match findUserByEmail db.users (jsToLower se), findUserByUsername db.users su with
      | some _, _ => (.error (str "Email already registered"), db)
      | _, some _ => (.error (str "Username already taken"), db)
      | none, none =>
        let u : UserRec := ⟨db.nextId, su, jsToLower se, password, none⟩
        (.ok (toPublic u, ⟨db.nextId⟩),
         { db with users := db.users ++ [u], nextId := db.nextId + 1 })

/-- `loginUser` from auth.controller.js.  `user.matchPassword` is the
opaque bcrypt comparison, modelled as equality with the stored value;
both the missing-user case and the wrong-password case fall into the
same `else` branch of the source (status 401,
"Invalid email or password"). -/
def loginUser (db : DB) (email password : Str) :
    Except Str (PublicUser × SessionToken) × DB :=
  if email = [] ∨ password = [] then
    (.error (str "Please provide email and password"), db)
  else
    let se := sanitizeInput email
    if !validateEmail se then (.error (str "Invalid email address"), db)
    else
      match findUserByEmail db.users (jsToLower se) with
      | some u =>
        if u.password == password then (.ok (toPublic u, ⟨u.id⟩), db)
        else (.error (str "Invalid email or password"), db)
      | none => (.error (str "Invalid email or password"), db)

/-- `forgotPassword` from auth.controller.js.  `otpCode` is the value of
`Math.floor(100000 + Math.random() * 999999)` and `now` is `Date.now()`
(environment inputs).  The OTP row is stored with the LOWERCASED email;
`sendEmail` is opaque and does not touch the stores. -/
def forgotPassword (db : DB) (email : Str) (otpCode now : Nat) :
    Except Str MsgOk × DB :=
  if email = [] then (.error (str "Please provide an email"), db)
  else
    let se := sanitizeInput email
    if !validateEmail se then (.error (str "Invalid email address"), db)
    else
      match findUserByEmail db.users (jsToLower se) with
      | none => (.ok ⟨str "If account exists, OTP sent", true⟩, db)
      | some _ =>
        (.ok ⟨str "OTP sent", true⟩,
         { db with otps := db.otps ++ [⟨jsToLower se, otpCode, now⟩] })

/-- `validateOTP` from auth.controller.js.  Looks the row up by the
SANITIZED (not lowercased) email; performs no store writes. -/
def validateOTP (db : DB) (email : Str) (code now : Nat) :
    Except Str MsgOk × DB :=
  let se := sanitizeInput email
  match findOtp db.otps se code with
  | none => (.error (str "Invalid or expired OTP"), db)
  | some r =>
    if now > r.createdAt + 5 * 60 * 1000 then (.error (str "Invalid or expired OTP"), db)
    else (.ok ⟨str "OTP validated", true⟩, db)

/-- `resetPassword` from auth.controller.js.  Re-validates the OTP with
the sanitized (not lowercased) email, then updates the found user's
password in place (`user.password = newPassword; user.save()`). -/
def resetPassword (db : DB) (email : Str) (code : Nat)
    (newPassword confirmPassword : Str) (now : Nat) :
    Except Str MsgOk × DB :=
  if newPassword = [] ∨ confirmPassword = [] then
    (.error (str "Provide both passwords"), db)
  else
    let se := sanitizeInput email
    match findOtp db.otps se code with
    | none => (.error (str "Invalid or expired OTP"), db)
    | some r =>
      if now > r.createdAt + 5 * 60 * 1000 then
        (.error (str "Invalid or expired OTP"), db)
      else if newPassword ≠ confirmPassword then
        (.error (str "Passwords do not match"), db)
      else if !validatePassword newPassword then
        (.error (str "Weak password"), db)
      else
        match findUserByEmail db.users (jsToLower se) with
        | none => (.error (str "User not found"), db)
        | some u =>
          let users := db.users.map fun v =>
            if v.id = u.id then { v with password := newPassword } else v
          (.ok ⟨str "Password reset successfully", true⟩, { db with users := users })

/-! ## Client state container (`authSlice`) -/

/-- The client auth state (`initialState` of the slice).  The persisted
`localStorage` snapshot that seeds `user`/`token` is an input of
`initialAuthState`; `user`, `token` and `error` payloads are opaque. -/
structure AuthState where
  user : Option String
  token : Option String
  loading : Bool
  error : Option String
  resetSuccess : Bool
  otpSent : Bool
  otpValidated : Bool
deriving DecidableEq, Repr

/-- The slice's `initialState`, seeded from the persisted snapshot. -/
def initialAuthState (storedUser storedToken : Option String) : AuthState :=
  ⟨storedUser, storedToken, false, none, false, false, false⟩

/-- The pending/fulfilled/rejected outcomes of the six async thunks the
slice listens to. -/
inductive AuthAction where
  | registerPending
  | registerFulfilled (user token : String)
  | registerRejected (err : String)
  | loginPending
  | loginFulfilled (user token : String)
  | loginRejected (err : String)
  | getMePending
  | getMeFulfilled (user : String)
  | getMeRejected (err : String)
  | forgotPending
  | forgotFulfilled
  | forgotRejected (err : String)
  | validateOTPPending
  | validateOTPFulfilled
  | validateOTPRejected (err : String)
  | resetPending
  | resetFulfilled
  | resetRejected (err : String)
deriving DecidableEq, Repr

/-- The `extraReducers` of `authSlice`.  The builder registers NO case
for `validateOTP.pending` or `resetPassword.pending`, so those actions
leave the state unchanged (Redux default).  `localStorage` writes are
side effects outside the state and are not modelled. -/
def authReducer (s : AuthState) : AuthAction → AuthState
  | .registerPending => { s with loading := true, error := none }
  | .registerFulfilled u t => { s with loading := false, user := some u, token := some t }
  | .registerRejected e => { s with loading := false, error := some e }
  | .loginPending => { s with loading := true, error := none }
  | .loginFulfilled u t => { s with loading := false, user := some u, token := some t }
  | .loginRejected e => { s with loading := false, error := some e }
  | .getMePending => { s with loading := true, error := none }
  | .getMeFulfilled u => { s with loading := false, user := some u }
  | .getMeRejected e =>
      { s with loading := false, error := some e, user := none, token := none }
  | .forgotPending => { s with loading := true, error := none, otpSent := false }
  | .forgotFulfilled => { s with loading := false, otpSent := true }
  | .forgotRejected e => { s with loading := false, error := some e }
  | .validateOTPPending => s
  | .validateOTPFulfilled => { s with loading := false, otpValidated := true }
  | .validateOTPRejected e => { s with loading := false, error := some e }
  | .resetPending => s
  | .resetFulfilled => { s with loading := false, resetSuccess := true }
  | .resetRejected e => { s with loading := false, error := some e }

/-! ## Auxiliary character-level lemmas -/

/-- Reading back a valid codepoint. -/
theorem char_toNat_ofNat_valid {n : Nat} (h : n.isValidChar) : (Char.ofNat n).toNat = n := by
  simp [Char.ofNat, dif_pos h, Char.ofNatAux, Char.toNat, UInt32.toNat]

/-- An uppercase ASCII letter has codepoint between 65 and 90. -/
theorem char_upper_bounds {c : Char} (h : c.isUpper = true) : 65 ≤ c.toNat ∧ c.toNat ≤ 90 := by
  simp only [Char.isUpper, Bool.and_eq_true, decide_eq_true_eq, ge_iff_le,
    UInt32.le_def, BitVec.le_def] at h
  exact ⟨h.1, h.2⟩

/-- Lowercasing moves an uppercase letter. -/
theorem char_toLower_ne_of_upper {c : Char} (h : c.isUpper = true) : c.toLower ≠ c := by
  have hval := char_upper_bounds h
  have hvalid : (c.toNat + 32).isValidChar := Or.inl (by omega)
  intro heq
  have ht : (Char.ofNat (c.toNat + 32)).toNat = c.toNat + 32 := char_toNat_ofNat_valid hvalid
  rw [Char.toLower] at heq
  simp only [ge_iff_le] at heq
  rw [if_pos ⟨hval.1, hval.2⟩] at heq
  rw [heq] at ht
  omega

/-- `Char.toLower` is idempotent. -/
theorem char_toLower_idem (c : Char) : c.toLower.toLower = c.toLower := by
  by_cases h : 65 ≤ c.toNat ∧ c.toNat ≤ 90
  · have hvalid : (c.toNat + 32).isValidChar := Or.inl (by omega)
    have ht : (Char.ofNat (c.toNat + 32)).toNat = c.toNat + 32 := char_toNat_ofNat_valid hvalid
    have hc : c.toLower = Char.ofNat (c.toNat + 32) := by
      rw [Char.toLower]; simp only [ge_iff_le]; rw [if_pos h]
    rw [hc]
    rw [Char.toLower]; simp only [ge_iff_le, ht]
    rw [if_neg (by omega)]
  · have hc : c.toLower = c := by
      rw [Char.toLower]; simp only [ge_iff_le]; rw [if_neg h]
    rw [hc, hc]

/-- `jsToLower` is idempotent. -/
theorem jsToLower_idem (l : Str) : jsToLower (jsToLower l) = jsToLower l := by
  simp only [jsToLower, List.map_map]
  exact List.map_congr_left fun c _ => char_toLower_idem c

deriving instance DecidableEq for Except

/-! ## Claim theorems -/

/-- C2: `validateOTP` fails with "Invalid or expired OTP" exactly when
there is no matching record or `now` exceeds the record's creation time
by more than five minutes; in particular a matching code is still valid
at `createdAt + 299` seconds and already invalid at `createdAt + 301`
seconds. -/
theorem validateOTP_five_minute_window (db : DB) (email : Str) (code now : Nat) :
    (findOtp db.otps (sanitizeInput email) code = none →
      (validateOTP db email code now).1 = .error (str "Invalid or expired OTP"))
    ∧ (∀ r, findOtp db.otps (sanitizeInput email) code = some r →
        (validateOTP db email code (r.createdAt + 299 * 1000)).1 =
            .ok ⟨str "OTP validated", true⟩
        ∧ (validateOTP db email code (r.createdAt + 301 * 1000)).1 =
            .error (str "Invalid or expired OTP")
        ∧ ((validateOTP db email code now).1 = .error (str "Invalid or expired OTP")
             ↔ now > r.createdAt + 5 * 60 * 1000)) := by
  constructor
  · intro h
    simp [validateOTP, h]
  · intro r h
    refine ⟨?_, ?_, ?_⟩
    · simp only [validateOTP, h]
      rw [if_neg (by omega)]
    · simp only [validateOTP, h]
      rw [if_pos (by omega)]
    · simp only [validateOTP, h]
      by_cases hc : now > r.createdAt + 5 * 60 * 1000
      · rw [if_pos hc]; simpa using hc
      · rw [if_neg hc]; simp [hc]

/-- Witness for C2: a concrete store with code 482913 created at time 0. -/
theorem validateOTP_five_minute_window_witness :
    (validateOTP ⟨[], [⟨str "a@b.com", 482913, 0⟩], 0⟩ (str "a@b.com") 482913 (0 + 299 * 1000)).1 =
        .ok ⟨str "OTP validated", true⟩
    ∧ (validateOTP ⟨[], [⟨str "a@b.com", 482913, 0⟩], 0⟩ (str "a@b.com") 482913 (0 + 301 * 1000)).1 =
        .error (str "Invalid or expired OTP")
    ∧ ((validateOTP ⟨[], [⟨str "a@b.com", 482913, 0⟩], 0⟩ (str "a@b.com") 482913 300000).1 =
        .error (str "Invalid or expired OTP") ↔ 300000 > 0 + 5 * 60 * 1000) :=
  (validateOTP_five_minute_window ⟨[], [⟨str "a@b.com", 482913, 0⟩], 0⟩
    (str "a@b.com") 482913 300000).2 ⟨str "a@b.com", 482913, 0⟩ (by decide)

/-- C10: at exactly `createdAt + 300000` milliseconds both `validateOTP`
and `resetPassword` still accept the code — the expiry comparison is a
strict greater-than, so the code turns invalid only strictly after the
five-minute mark. -/
theorem otp_boundary_accepts (db : DB) (email : Str) (code : Nat) (r : OtpRec)
    (np : Str) (u : UserRec)
    (hr : findOtp db.otps (sanitizeInput email) code = some r)
    (hnp : np ≠ [])
    (hpw : validatePassword np = true)
    (hu : findUserByEmail db.users (jsToLower (sanitizeInput email)) = some u) :
    (validateOTP db email code (r.createdAt + 300000)).1 = .ok ⟨str "OTP validated", true⟩
    ∧ (resetPassword db email code np np (r.createdAt + 300000)).1 =
        .ok ⟨str "Password reset successfully", true⟩ := by
  constructor
  · simp only [validateOTP, hr]
    rw [if_neg (by omega)]
  · simp only [resetPassword, hr]
    rw [if_neg (by simp [hnp]), if_neg (by omega), if_neg (by simp), if_neg (by simp [hpw]), hu]

/-- Witness for C10: the concrete boundary call at exactly 300000 ms. -/
theorem otp_boundary_accepts_witness :
    (validateOTP ⟨[⟨0, str "alice_1", str "a@b.com", str "pass123", none⟩],
        [⟨str "a@b.com", 482913, 0⟩], 1⟩ (str "a@b.com") 482913 (0 + 300000)).1 =
      .ok ⟨str "OTP validated", true⟩
    ∧ (resetPassword ⟨[⟨0, str "alice_1", str "a@b.com", str "pass123", none⟩],
        [⟨str "a@b.com", 482913, 0⟩], 1⟩ (str "a@b.com") 482913 (str "newpass1")
        (str "newpass1") (0 + 300000)).1 =
      .ok ⟨str "Password reset successfully", true⟩ :=
  otp_boundary_accepts ⟨[⟨0, str "alice_1", str "a@b.com", str "pass123", none⟩],
      [⟨str "a@b.com", 482913, 0⟩], 1⟩ (str "a@b.com") 482913 ⟨str "a@b.com", 482913, 0⟩
    (str "newpass1") ⟨0, str "alice_1", str "a@b.com", str "pass123", none⟩
    (by decide) (by decide) (by decide) (by decide)

/-- C6: for a well-formed email, login with a non-existent email and
login with an existing email but non-matching password produce the very
same error (`Except.error "Invalid email or password"`, status 401 in
the source), revealing nothing about account existence. -/
theorem login_nonenumerable_error (db : DB) (email password : Str)
    (hne : email ≠ [] ∧ password ≠ [])
    (hem : validateEmail (sanitizeInput email) = true) :
    (findUserByEmail db.users (jsToLower (sanitizeInput email)) = none →
      (loginUser db email password).1 = .error (str "Invalid email or password"))
    ∧ (∀ u, findUserByEmail db.users (jsToLower (sanitizeInput email)) = some u →
        u.password ≠ password →
        (loginUser db email password).1 = .error (str "Invalid email or password")) := by
  constructor
  · intro h
    simp only [loginUser]
    rw [if_neg (by simp [hne.1, hne.2]), if_neg (by simp [hem]), h]
  · intro u h hpw
    simp only [loginUser]
    rw [if_neg (by simp [hne.1, hne.2]), if_neg (by simp [hem]), h]
    simp [hpw]

/-- Witness for C6: a store holding alice; a login with an unknown email
and one with alice's email but a wrong password yield the same error. -/
theorem login_nonenumerable_error_witness :
    ((loginUser ⟨[⟨0, str "alice_1", str "a@b.com", str "pass123", none⟩], [], 1⟩
        (str "b@c.com") (str "pass123")).1 = .error (str "Invalid email or password"))
    ∧ ((loginUser ⟨[⟨0, str "alice_1", str "a@b.com", str "pass123", none⟩], [], 1⟩
        (str "a@b.com") (str "wrong999")).1 = .error (str "Invalid email or password")) :=
  ⟨(login_nonenumerable_error ⟨[⟨0, str "alice_1", str "a@b.com", str "pass123", none⟩], [], 1⟩
      (str "b@c.com") (str "pass123") (by decide) (by decide)).1 (by decide),
   (login_nonenumerable_error ⟨[⟨0, str "alice_1", str "a@b.com", str "pass123", none⟩], [], 1⟩
      (str "a@b.com") (str "wrong999") (by decide) (by decide)).2
     ⟨0, str "alice_1", str "a@b.com", str "pass123", none⟩ (by decide) (by decide)⟩

/-- C1 counterexample: with alice registered, `forgotPassword` for her
email answers `{ message: "OTP sent", success: true }` while for an
unknown email it answers `{ message: "If account exists, OTP sent",
success: true }` — same shape, but NOT identical content, so the caller
can distinguish the two cases from the message text. -/
theorem forgotPassword_content_differs :
    (forgotPassword ⟨[⟨0, str "alice_1", str "alice@x.com", str "pass123", none⟩], [], 1⟩
        (str "alice@x.com") 482913 0).1 = .ok ⟨str "OTP sent", true⟩
    ∧ (forgotPassword ⟨[⟨0, str "alice_1", str "alice@x.com", str "pass123", none⟩], [], 1⟩
        (str "bob@x.com") 482913 0).1 = .ok ⟨str "If account exists, OTP sent", true⟩
    ∧ (forgotPassword ⟨[⟨0, str "alice_1", str "alice@x.com", str "pass123", none⟩], [], 1⟩
        (str "alice@x.com") 482913 0).1 ≠
      (forgotPassword ⟨[⟨0, str "alice_1", str "alice@x.com", str "pass123", none⟩], [], 1⟩
        (str "bob@x.com") 482913 0).1 := by decide

/-- C1 amended: for every well-formed email, `forgotPassword` returns a
success acknowledgment of the same SHAPE (`.ok` with `success = true`
and a message string) whether or not the account exists, but the message
content depends on existence: "OTP sent" when a user is found and
"If account exists, OTP sent" when not. -/
theorem forgotPassword_success_shape (db : DB) (email : Str) (otpCode now : Nat)
    (h1 : email ≠ []) (h2 : validateEmail (sanitizeInput email) = true) :
    (forgotPassword db email otpCode now).1 =
      .ok ⟨(if (findUserByEmail db.users (jsToLower (sanitizeInput email))).isSome then
              str "OTP sent"
            else str "If account exists, OTP sent"), true⟩ := by
  simp only [forgotPassword]
  rw [if_neg (by simp [h1]), if_neg (by simp [h2])]
  cases h : findUserByEmail db.users (jsToLower (sanitizeInput email)) <;> simp [h]

/-- Witness for the amended C1: both branches at concrete inputs. -/
theorem forgotPassword_success_shape_witness :
    (forgotPassword ⟨[⟨0, str "alice_1", str "alice@x.com", str "pass123", none⟩], [], 1⟩
        (str "alice@x.com") 482913 0).1 =
      .ok ⟨(if (findUserByEmail [⟨0, str "alice_1", str "alice@x.com", str "pass123", none⟩]
                  (jsToLower (sanitizeInput (str "alice@x.com")))).isSome then
              str "OTP sent"
            else str "If account exists, OTP sent"), true⟩ :=
  forgotPassword_success_shape
    ⟨[⟨0, str "alice_1", str "alice@x.com", str "pass123", none⟩], [], 1⟩
    (str "alice@x.com") 482913 0 (by decide) (by decide)

/-- C4 (code bug): `googleAuth` sends `res.json({ success, token, user })`
with the COMPLETE user document — unlike `registerUser`, `loginUser` and
`getMe`, it never deletes the password field.  For a pre-existing
password account the success payload therefore carries the stored
password hash ("pass123" here under the identity-hash model). -/
theorem googleAuth_leaks_password_hash :
    (googleAuth ⟨[⟨0, str "alice_1", str "alice@x.com", str "pass123", none⟩], [], 1⟩
        (some ⟨str "alice@x.com", str "Alice", str "pic"⟩)).1 =
      .success ⟨0⟩ ⟨0, str "alice_1", str "alice@x.com", str "pass123", none⟩
    ∧ (match (googleAuth ⟨[⟨0, str "alice_1", str "alice@x.com", str "pass123", none⟩], [], 1⟩
          (some ⟨str "alice@x.com", str "Alice", str "pic"⟩)).1 with
       | .success _ u => u.password
       | .failure _ => []) = str "pass123" := by decide

/-- C7 counterexample: the register input username "$alice1" (beginning
with the query-operator character `$`) is NOT rejected: the call
succeeds and creates a user record (with username "alice1"). -/
theorem register_dollar_value_accepted :
    (registerUser initDB (str "$alice1") (str "a@b.com") (str "pass123")).1 =
      .ok (⟨0, str "alice1", str "a@b.com", none⟩, ⟨0⟩)
    ∧ (registerUser initDB (str "$alice1") (str "a@b.com") (str "pass123")).2.users =
      [⟨0, str "alice1", str "a@b.com", str "pass123", none⟩] := by decide

/-- C7 amended: a value whose trimmed form begins with `$` is not
rejected; `sanitizeInput` strips the single leading `$` and register
proceeds with the stripped value, creating a record from it whenever the
stripped value passes the ordinary validation. -/
theorem register_strips_leading_dollar :
    (∀ input rest, jsTrim input = '$' :: rest → sanitizeInput input = rest)
    ∧ (registerUser initDB (str "$bob234") (str "b@c.com") (str "pass123")).1 =
        .ok (⟨0, str "bob234", str "b@c.com", none⟩, ⟨0⟩) := by
  constructor
  · intro input rest h
    simp [sanitizeInput, h]
  · decide

/-- Witness for the amended C7. -/
theorem register_strips_leading_dollar_witness :
    sanitizeInput (str "$xy") = str "xy" :=
  register_strips_leading_dollar.1 (str "$xy") (str "xy") (by decide)

/-- C8 counterexample: the slice registers no handler for
`validateOTP.pending` (nor `resetPassword.pending`), so dispatching that
pending outcome leaves the state unchanged — in particular `loading`
stays `false` and is not set to `true` as the claim requires. -/
theorem pending_handlers_missing :
    authReducer (initialAuthState none none) .validateOTPPending = initialAuthState none none
    ∧ ¬ ((authReducer (initialAuthState none none) .validateOTPPending).loading = true)
    ∧ ¬ ((authReducer (initialAuthState none none) .resetPending).loading = true) := by decide

/-- C8 amended: pending sets `loading = true` and `error = null` for
register, login, getMe and forgotPassword only (forgotPassword also
clears `otpSent`); `validateOTP.pending` and `resetPassword.pending`
have no handler and leave the state unchanged; every fulfilled outcome
sets `loading = false` and applies its payload; every rejected outcome
sets `loading = false` and `error = payload` (getMe.rejected also clears
`user` and `token`). -/
theorem authReducer_mirror (s : AuthState) (u t e : String) :
    authReducer s .registerPending = { s with loading := true, error := none }
    ∧ authReducer s .loginPending = { s with loading := true, error := none }
    ∧ authReducer s .getMePending = { s with loading := true, error := none }
    ∧ authReducer s .forgotPending = { s with loading := true, error := none, otpSent := false }
    ∧ authReducer s .validateOTPPending = s
    ∧ authReducer s .resetPending = s
    ∧ authReducer s (.registerFulfilled u t) =
        { s with loading := false, user := some u, token := some t }
    ∧ authReducer s (.loginFulfilled u t) =
        { s with loading := false, user := some u, token := some t }
    ∧ authReducer s (.getMeFulfilled u) = { s with loading := false, user := some u }
    ∧ authReducer s .forgotFulfilled = { s with loading := false, otpSent := true }
    ∧ authReducer s .validateOTPFulfilled = { s with loading := false, otpValidated := true }
    ∧ authReducer s .resetFulfilled = { s with loading := false, resetSuccess := true }
    ∧ authReducer s (.registerRejected e) = { s with loading := false, error := some e }
    ∧ authReducer s (.loginRejected e) = { s with loading := false, error := some e }
    ∧ authReducer s (.getMeRejected e) =
        { s with loading := false, error := some e, user := none, token := none }
    ∧ authReducer s (.forgotRejected e) = { s with loading := false, error := some e }
    ∧ authReducer s (.validateOTPRejected e) = { s with loading := false, error := some e }
    ∧ authReducer s (.resetRejected e) = { s with loading := false, error := some e } :=
  ⟨rfl, rfl, rfl, rfl, rfl, rfl, rfl, rfl, rfl, rfl, rfl, rfl, rfl, rfl, rfl, rfl, rfl, rfl⟩

/-- If lowercasing a list fixes it, it fixes every element. -/
theorem map_toLower_fix {l : Str} (h : jsToLower l = l) : ∀ c ∈ l, c.toLower = c := by
  induction l with
  | nil => intro c hc; cases hc
  | cons a t ih =>
    intro c hc
    simp only [jsToLower, List.map_cons, List.cons.injEq] at h
    cases hc with
    | head => exact h.1
    | tail _ ht => exact ih h.2 c ht

/-- A string containing an uppercase letter is moved by `jsToLower`. -/
theorem jsToLower_ne_of_hasUpper {l : Str} (h : l.any Char.isUpper = true) :
    jsToLower l ≠ l := by
  intro heq
  rw [List.any_eq_true] at h
  obtain ⟨c, hc, hcu⟩ := h
  exact char_toLower_ne_of_upper hcu (map_toLower_fix heq c hc)

/-- C9: for an email whose sanitized form contains an uppercase letter
and whose lowercased form belongs to a user, `forgotPassword` succeeds
and stores the fresh code under the LOWERCASED email, but `validateOTP`
and `resetPassword` look the record up under the merely sanitized (not
lowercased) email, so the freshly issued code is reported as
"Invalid or expired OTP" at every later time. -/
theorem forgot_then_validate_case_mismatch (db : DB) (email : Str)
    (otpCode now now' : Nat) (u : UserRec)
    (hupper : (sanitizeInput email).any Char.isUpper = true)
    (hne : email ≠ [])
    (hem : validateEmail (sanitizeInput email) = true)
    (hu : findUserByEmail db.users (jsToLower (sanitizeInput email)) = some u)
    (hotp : db.otps = []) :
    (forgotPassword db email otpCode now).1 = .ok ⟨str "OTP sent", true⟩
    ∧ (forgotPassword db email otpCode now).2.otps =
        [⟨jsToLower (sanitizeInput email), otpCode, now⟩]
    ∧ (validateOTP (forgotPassword db email otpCode now).2 email otpCode now').1 =
        .error (str "Invalid or expired OTP")
    ∧ (resetPassword (forgotPassword db email otpCode now).2 email otpCode
        (str "newpass1") (str "newpass1") now').1 = .error (str "Invalid or expired OTP") := by
  have hlow : jsToLower (sanitizeInput email) ≠ sanitizeInput email :=
    jsToLower_ne_of_hasUpper hupper
  have hf : forgotPassword db email otpCode now =
      (.ok ⟨str "OTP sent", true⟩,
       { db with otps := db.otps ++ [⟨jsToLower (sanitizeInput email), otpCode, now⟩] }) := by
    simp only [forgotPassword]
    rw [if_neg (by simp [hne]), if_neg (by simp [hem]), hu]
  have hfind : findOtp (forgotPassword db email otpCode now).2.otps
      (sanitizeInput email) otpCode = none := by
    rw [hf]
    simp [findOtp, hotp, hlow]
  refine ⟨by rw [hf], by rw [hf]; simp [hotp], ?_, ?_⟩
  · simp only [validateOTP, hfind]
  · simp only [resetPassword, hfind]
    rw [if_neg (by simp [str])]

/-- Witness for C9: email "Alice@x.com" against the store holding
"alice@x.com". -/
theorem forgot_then_validate_case_mismatch_witness :
    (forgotPassword ⟨[⟨0, str "alice_1", str "alice@x.com", str "pass123", none⟩], [], 1⟩
        (str "Alice@x.com") 482913 0).1 = .ok ⟨str "OTP sent", true⟩
    ∧ (forgotPassword ⟨[⟨0, str "alice_1", str "alice@x.com", str "pass123", none⟩], [], 1⟩
        (str "Alice@x.com") 482913 0).2.otps =
        [⟨jsToLower (sanitizeInput (str "Alice@x.com")), 482913, 0⟩]
    ∧ (validateOTP (forgotPassword ⟨[⟨0, str "alice_1", str "alice@x.com", str "pass123", none⟩],
          [], 1⟩ (str "Alice@x.com") 482913 0).2 (str "Alice@x.com") 482913 10).1 =
        .error (str "Invalid or expired OTP")
    ∧ (resetPassword (forgotPassword ⟨[⟨0, str "alice_1", str "alice@x.com", str "pass123", none⟩],
          [], 1⟩ (str "Alice@x.com") 482913 0).2 (str "Alice@x.com") 482913
        (str "newpass1") (str "newpass1") 10).1 = .error (str "Invalid or expired OTP") :=
  forgot_then_validate_case_mismatch
    ⟨[⟨0, str "alice_1", str "alice@x.com", str "pass123", none⟩], [], 1⟩
    (str "Alice@x.com") 482913 0 10 ⟨0, str "alice_1", str "alice@x.com", str "pass123", none⟩
    (by decide) (by decide) (by decide) (by decide) (by decide)

/-- C3: a successful `resetPassword` leaves the OTP collection and the
id counter untouched and rewrites only the password field of the user
found by the lowercased email (every other user record and every other
field is unchanged); the matching OTP record is still present
afterwards, and `validateOTP` never changes the database at all. -/
theorem resetPassword_frame (db db' : DB) (email : Str) (code : Nat)
    (np cp : Str) (now : Nat) (out : MsgOk)
    (h : resetPassword db email code np cp now = (.ok out, db')) :
    db'.otps = db.otps
    ∧ db'.nextId = db.nextId
    ∧ (∃ u, findUserByEmail db.users (jsToLower (sanitizeInput email)) = some u
        ∧ db'.users = db.users.map fun v =>
            if v.id = u.id then { v with password := np } else v)
    ∧ (∃ r, findOtp db'.otps (sanitizeInput email) code = some r)
    ∧ (∀ db₂ e c n, (validateOTP db₂ e c n).2 = db₂) := by
  have hv : ∀ db₂ e c n, (validateOTP db₂ e c n).2 = db₂ := by
    intro db₂ e c n
    simp only [validateOTP]
    cases hf : findOtp db₂.otps (sanitizeInput e) c with
    | none => rfl
    | some r =>
      dsimp only
      split <;> rfl
  simp only [resetPassword] at h
  split at h
  · exact absurd (congrArg Prod.fst h) (by simp)
  · rename_i hnp
    cases hfo : findOtp db.otps (sanitizeInput email) code with
    | none => rw [hfo] at h; exact absurd (congrArg Prod.fst h) (by simp)
    | some r =>
      rw [hfo] at h
      dsimp only at h
      split at h
      · exact absurd (congrArg Prod.fst h) (by simp)
      · split at h
        · exact absurd (congrArg Prod.fst h) (by simp)
        · split at h
          · exact absurd (congrArg Prod.fst h) (by simp)
          · cases hfu : findUserByEmail db.users (jsToLower (sanitizeInput email)) with
            | none => rw [hfu] at h; exact absurd (congrArg Prod.fst h) (by simp)
            | some u =>
              rw [hfu] at h
              dsimp only at h
              rw [Prod.mk.injEq] at h
              obtain ⟨-, hdb⟩ := h
              refine ⟨by rw [← hdb], by rw [← hdb], ⟨u, rfl, by rw [← hdb]⟩, ⟨r, ?_⟩, hv⟩
              rw [← hdb]
              exact hfo

/-- Witness for C3: a concrete successful reset; the OTP row survives
and only alice's password changes. -/
theorem resetPassword_frame_witness :
    (⟨[⟨0, str "alice_1", str "a@b.com", str "newpass1", none⟩],
        [⟨str "a@b.com", 482913, 0⟩], 1⟩ : DB).otps =
      (⟨[⟨0, str "alice_1", str "a@b.com", str "pass123", none⟩],
        [⟨str "a@b.com", 482913, 0⟩], 1⟩ : DB).otps
    ∧ (⟨[⟨0, str "alice_1", str "a@b.com", str "newpass1", none⟩],
        [⟨str "a@b.com", 482913, 0⟩], 1⟩ : DB).nextId =
      (⟨[⟨0, str "alice_1", str "a@b.com", str "pass123", none⟩],
        [⟨str "a@b.com", 482913, 0⟩], 1⟩ : DB).nextId
    ∧ (∃ u, findUserByEmail (⟨[⟨0, str "alice_1", str "a@b.com", str "pass123", none⟩],
          [⟨str "a@b.com", 482913, 0⟩], 1⟩ : DB).users
            (jsToLower (sanitizeInput (str "a@b.com"))) = some u
        ∧ (⟨[⟨0, str "alice_1", str "a@b.com", str "newpass1", none⟩],
            [⟨str "a@b.com", 482913, 0⟩], 1⟩ : DB).users =
          (⟨[⟨0, str "alice_1", str "a@b.com", str "pass123", none⟩],
            [⟨str "a@b.com", 482913, 0⟩], 1⟩ : DB).users.map fun v =>
              if v.id = u.id then { v with password := str "newpass1" } else v)
    ∧ (∃ r, findOtp (⟨[⟨0, str "alice_1", str "a@b.com", str "newpass1", none⟩],
          [⟨str "a@b.com", 482913, 0⟩], 1⟩ : DB).otps (sanitizeInput (str "a@b.com")) 482913 =
          some r)
    ∧ (∀ db₂ e c n, (validateOTP db₂ e c n).2 = db₂) :=
  resetPassword_frame
    ⟨[⟨0, str "alice_1", str "a@b.com", str "pass123", none⟩], [⟨str "a@b.com", 482913, 0⟩], 1⟩
    ⟨[⟨0, str "alice_1", str "a@b.com", str "newpass1", none⟩], [⟨str "a@b.com", 482913, 0⟩], 1⟩
    (str "a@b.com") 482913 (str "newpass1") (str "newpass1") 100
    ⟨str "Password reset successfully", true⟩ (by decide)

/-- The invariant asserted by the spec for `UserIdentity` records:
username is 3–20 characters drawn from `[A-Za-z0-9_]`, usernames are
unique, and emails are unique case-insensitively. -/
def usersClaimInvariant (l : List UserRec) : Prop :=
  (∀ u ∈ l, 3 ≤ u.username.length ∧ u.username.length ≤ 20
     ∧ ∀ c ∈ u.username, (c.isAlphanum || c == '_') = true)
  ∧ (l.map UserRec.username).Nodup
  ∧ (l.map fun u => jsToLower u.email).Nodup

/-- An operation of the auth flow engine that the amended C5 quantifies
over (`googleAuth` is excluded — see the counterexample). -/
inductive Op where
  | reg (username email password : Str)
  | login (email password : Str)
  | reset (email : Str) (code : Nat) (newPassword confirmPassword : Str) (now : Nat)

/-- Run one operation for its database effect. -/
def applyOp (db : DB) : Op → DB
  | .reg u e p => (registerUser db u e p).2
  | .login e p => (loginUser db e p).2
  | .reset e c np cp now => (resetPassword db e c np cp now).2

/-- Run a sequence of operations from a database. -/
def runOps (db : DB) (ops : List Op) : DB := ops.foldl applyOp db

/-- Strengthened inductive invariant: every stored username passes the
register validator, every stored email is lowercase-fixed, and both the
username and the email columns are duplicate-free. -/
def usersAuxInvariant (l : List UserRec) : Prop :=
  (∀ u ∈ l, validateUsername u.username = true)
  ∧ (∀ u ∈ l, jsToLower u.email = u.email)
  ∧ (l.map UserRec.username).Nodup
  ∧ (l.map UserRec.email).Nodup

/-- `loginUser` never changes the database. -/
theorem loginUser_db_eq (db : DB) (e p : Str) : (loginUser db e p).2 = db := by
  simp only [loginUser]
  split
  · rfl
  · split
    · rfl
    · split
      · split <;> rfl
      · rfl

/-- The database effect of `registerUser`: either nothing, or appending
one record built from the sanitized username, the lowercased sanitized
email and the raw password, after all validations and both uniqueness
probes passed. -/
theorem registerUser_users_effect (db : DB) (u e p : Str) :
    (registerUser db u e p).2 = db
    ∨ (validateUsername (sanitizeInput u) = true
       ∧ findUserByEmail db.users (jsToLower (sanitizeInput e)) = none
       ∧ findUserByUsername db.users (sanitizeInput u) = none
       ∧ (registerUser db u e p).2 =
           { db with
             users := db.users ++
               [⟨db.nextId, sanitizeInput u, jsToLower (sanitizeInput e), p, none⟩],
             nextId := db.nextId + 1 }) := by
  simp only [registerUser]
  split
  · exact .inl rfl
  · by_cases hu : validateUsername (sanitizeInput u)
    · rw [if_neg (by simp [hu])]
      by_cases he : validateEmail (sanitizeInput e)
      · rw [if_neg (by simp [he])]
        by_cases hp : validatePassword p
        · rw [if_neg (by simp [hp])]
          cases hfe : findUserByEmail db.users (jsToLower (sanitizeInput e)) with
          | some w =>
            cases hfu : findUserByUsername db.users (sanitizeInput u) <;> exact .inl rfl
          | none =>
            cases hfu : findUserByUsername db.users (sanitizeInput u) with
            | some w => exact .inl rfl
            | none => exact .inr ⟨hu, rfl, rfl, rfl⟩
        · rw [if_pos (by simp [hp])]
          exact .inl rfl
      · rw [if_pos (by simp [he])]
        exact .inl rfl
    · rw [if_pos (by simp [hu])]
      exact .inl rfl

/-- The database effect of `resetPassword`: either nothing, or a
password-only rewrite of the user column. -/
theorem resetPassword_users_effect (db : DB) (e : Str) (c : Nat)
    (np cp : Str) (now : Nat) :
    (resetPassword db e c np cp now).2 = db
    ∨ ∃ w : UserRec, (resetPassword db e c np cp now).2 =
        { db with users := db.users.map fun v =>
            if v.id = w.id then { v with password := np } else v } := by
  simp only [resetPassword]
  split
  · exact .inl rfl
  · cases hfo : findOtp db.otps (sanitizeInput e) c with
    | none => exact .inl rfl
    | some r =>
      dsimp only
      split
      · exact .inl rfl
      · split
        · exact .inl rfl
        · split
          · exact .inl rfl
          · cases hfu : findUserByEmail db.users (jsToLower (sanitizeInput e)) with
            | none => exact .inl rfl
            | some w => exact .inr ⟨w, rfl⟩

/-- A password-only rewrite preserves the auxiliary invariant. -/
theorem auxInvariant_password_map (l : List UserRec) (np : Str) (w : UserRec)
    (h : usersAuxInvariant l) :
    usersAuxInvariant (l.map fun v => if v.id = w.id then { v with password := np } else v) := by
  obtain ⟨h1, h2, h3, h4⟩ := h
  have husername : ∀ v : UserRec,
      (if v.id = w.id then { v with password := np } else v).username = v.username := by
    intro v; split <;> rfl
  have hemail : ∀ v : UserRec,
      (if v.id = w.id then { v with password := np } else v).email = v.email := by
    intro v; split <;> rfl
  refine ⟨?_, ?_, ?_, ?_⟩
  · intro v hv
    obtain ⟨v₀, hv₀, rfl⟩ := List.mem_map.mp hv
    rw [husername v₀]
    exact h1 v₀ hv₀
  · intro v hv
    obtain ⟨v₀, hv₀, rfl⟩ := List.mem_map.mp hv
    rw [hemail v₀]
    exact h2 v₀ hv₀
  · rw [List.map_map]
    have : (UserRec.username ∘ fun v => if v.id = w.id then { v with password := np } else v) =
        UserRec.username := by
      funext v; exact husername v
    rw [this]
    exact h3
  · rw [List.map_map]
    have : (UserRec.email ∘ fun v => if v.id = w.id then { v with password := np } else v) =
        UserRec.email := by
      funext v; exact hemail v
    rw [this]
    exact h4

/-- Each operation of the amended C5 preserves the auxiliary invariant. -/
theorem applyOp_preserves_auxInvariant (db : DB) (op : Op)
    (h : usersAuxInvariant db.users) : usersAuxInvariant (applyOp db op).users := by
  obtain ⟨h1, h2, h3, h4⟩ := h
  cases op with
  | login e p =>
    simp only [applyOp, loginUser_db_eq]
    exact ⟨h1, h2, h3, h4⟩
  | reset e c np cp now =>
    rcases resetPassword_users_effect db e c np cp now with heq | ⟨w, heq⟩
    · simp only [applyOp, heq]
      exact ⟨h1, h2, h3, h4⟩
    · simp only [applyOp, heq]
      exact auxInvariant_password_map db.users np w ⟨h1, h2, h3, h4⟩
  | reg u e p =>
    rcases registerUser_users_effect db u e p with heq | ⟨hu, hfe, hfu, heq⟩
    · simp only [applyOp, heq]
      exact ⟨h1, h2, h3, h4⟩
    · simp only [applyOp, heq]
      have hnotmail : ∀ x ∈ db.users, x.email ≠ jsToLower (sanitizeInput e) := by
        intro x hx
        have := List.find?_eq_none.mp hfe x hx
        simpa using this
      have hnotname : ∀ x ∈ db.users, x.username ≠ sanitizeInput u := by
        intro x hx
        have := List.find?_eq_none.mp hfu x hx
        simpa using this
      refine ⟨?_, ?_, ?_, ?_⟩
      · intro v hv
        rcases List.mem_append.mp hv with hv | hv
        · exact h1 v hv
        · rcases List.mem_singleton.mp hv with rfl
          exact hu
      · intro v hv
        rcases List.mem_append.mp hv with hv | hv
        · exact h2 v hv
        · rcases List.mem_singleton.mp hv with rfl
          exact jsToLower_idem (sanitizeInput e)
      · rw [List.map_append, List.nodup_append]
        refine ⟨h3, List.nodup_singleton _, ?_⟩
        intro a ha hb
        rcases List.mem_singleton.mp hb with rfl
        obtain ⟨x, hx, hxe⟩ := List.mem_map.mp ha
        exact hnotname x hx hxe
      · rw [List.map_append, List.nodup_append]
        refine ⟨h4, List.nodup_singleton _, ?_⟩
        intro a ha hb
        rcases List.mem_singleton.mp hb with rfl
        obtain ⟨x, hx, hxe⟩ := List.mem_map.mp ha
        exact hnotmail x hx hxe

/-- C5 counterexample: register alice, then `googleAuth` with payload
email "A@b.com" and display name "alice_1", then register with username
"$ bob12".  The final store violates all three asserted invariants:
`googleAuth` duplicates the username "alice_1" and stores the email
"A@b.com" which collides case-insensitively with "a@b.com", and the
register call stores the username " bob12" containing a space (the
leading "$" is stripped from the trimmed input, the validator re-trims,
but the stored value keeps the inner whitespace). -/
theorem user_invariants_violated :
    ¬ usersClaimInvariant
      ((registerUser
        ((googleAuth
          ((registerUser initDB (str "alice_1") (str "a@b.com") (str "pass123")).2)
          (some ⟨str "A@b.com", str "alice_1", str "pic"⟩)).2)
        (str "$ bob12") (str "b@c.com") (str "pass123")).2).users := by
  unfold usersClaimInvariant
  decide

/-- C5 amended: after any sequence of `registerUser`, `loginUser` and
`resetPassword` operations from the empty store, every stored username
passes the register validator (its trimmed form is 3–20 characters of
`[A-Za-z0-9_]`; the stored string itself may carry leading whitespace
left over from stripping a "$"), usernames are exactly unique, and
emails are unique case-insensitively.  `googleAuth` is excluded: it can
violate all three invariants (see the counterexample). -/
theorem user_invariants_amended (ops : List Op) :
    (∀ u ∈ (runOps initDB ops).users, validateUsername u.username = true)
    ∧ ((runOps initDB ops).users.map UserRec.username).Nodup
    ∧ ((runOps initDB ops).users.map fun u => jsToLower u.email).Nodup := by
  have key : ∀ t db, usersAuxInvariant db.users → usersAuxInvariant (runOps db t).users := by
    intro t
    induction t with
    | nil => intro db h; exact h
    | cons op t₂ ih =>
      intro db h
      exact ih (applyOp db op) (applyOp_preserves_auxInvariant db op h)
  have hinit : usersAuxInvariant initDB.users := by
    refine ⟨?_, ?_, ?_, ?_⟩ <;> simp [initDB]
  obtain ⟨h1, h2, h3, h4⟩ := key ops initDB hinit
  refine ⟨h1, h3, ?_⟩
  have hmap : ((runOps initDB ops).users.map fun u => jsToLower u.email) =
      (runOps initDB ops).users.map UserRec.email :=
    List.map_congr_left fun u hu => h2 u hu
  rw [hmap]
  exact h4
